import Mathlib

/-!
Shallow embedding of the pizza-ordering application (`src/app.py`) and
verification of the frozen claims about its specification.

Modelling conventions:
* SQLite `REAL` prices and discount percentages are modelled as `ℚ`.
* A SQLite value stored in a dynamically-typed column is a `SqlVal`
  (integer storage class, text storage class, or NULL).  SQLite's
  INTEGER type affinity converts well-formed integer-literal strings
  to the integer storage class; this is `applyIntAffinity`.  (Strings
  that are decimal literals, which SQLite would store as REAL, never
  arise in the claims and are left in the text class.)
* Table absence matters (the code references a `PromoCode` table that
  `init_db` never creates), so each table in `DBState` is an `Option`.
* The `Order` table exists in two shapes: the pre-migration shape
  created by `init_db` (no `customer_name` / `promo_code_id` columns)
  and the current shape produced by `migrate_order_table`.
* `datetime.now()` is modelled by the ambient clock field `now`.
* Python's sqlite3 driver leaves `PRAGMA foreign_keys` OFF and the code
  never issues it, so the `FOREIGN KEY` clauses in the schema are
  declared but not enforced: `save_order` inserts unconditionally.
-/

/-- A SQLite storage-class value for a dynamically typed column. -/
inductive SqlVal where
  | int (i : Int)
  | text (s : String)
  | null
deriving DecidableEq, Repr

/-- Numeric value of a digit string, most significant digit first. -/
def charsToNat (l : List Char) : Nat :=
  l.foldl (fun n c => n * 10 + (c.toNat - '0'.toNat)) 0

/-- Parse a well-formed integer literal (optional leading minus sign,
then one or more decimal digits). -/
def sqlIntLiteral (s : String) : Option Int :=
  match s.data with
  | [] => none
  | '-' :: rest =>
      if rest.isEmpty then none
      else if rest.all Char.isDigit then some (-(charsToNat rest : Int))
      else none
  | l => if l.all Char.isDigit then some (charsToNat l : Int) else none

/-- SQLite INTEGER type affinity applied to a bound text parameter:
a well-formed integer literal is stored in the integer storage class,
anything else stays text. -/
def applyIntAffinity (s : String) : SqlVal :=
  match sqlIntLiteral s with
  | some n => SqlVal.int n
  | none => SqlVal.text s

/-- Python's `str.upper()` (the promo codes in scope are ASCII). -/
def pyUpper (s : String) : String :=
  { data := s.data.map Char.toUpper }

/-- Read an integer storage-class value, as used by a join on an id. -/
def SqlVal.asInt : SqlVal → Option Int
  | SqlVal.int i => some i
  | _ => none

/-- A row of the `Pizza` table. -/
structure Pizza where
  id : Nat
  name : String
  price : ℚ
deriving DecidableEq, Repr

/-- A row of the `PromoCode` table. -/
structure PromoCode where
  id : Nat
  code : String
  discount_percent : ℚ
deriving DecidableEq, Repr

/-- A row of the pre-migration `Order` table created by `init_db`
(`id, pizza_id, quantity, order_date`). -/
structure OrderRowOld where
  id : Nat
  pizza_id : SqlVal
  quantity : SqlVal
  order_date : String
deriving DecidableEq, Repr

/-- A row of the current-shape `Order` table produced by
`migrate_order_table`
(`id, pizza_id, quantity, customer_name, order_date, promo_code_id`). -/
structure OrderRow where
  id : Nat
  pizza_id : SqlVal
  quantity : SqlVal
  customer_name : String
  order_date : String
  promo_code_id : Option Nat
deriving DecidableEq, Repr

/-- The `Order` table, which exists in one of two shapes: the shape
check in `migrate_order_table` asks whether `customer_name` is among
the columns. -/
inductive OrderTable where
  | old (rows : List OrderRowOld)
  | cur (rows : List OrderRow)
deriving DecidableEq, Repr

/-- The persistent store: each table is `none` when absent.  `orderNew`
is the shadow table `Order_new` used during migration (normally absent;
an aborted migration leaves it behind, committed and empty, because the
sqlite3 driver autocommits DDL executed outside a transaction).
`nextOrderId` / `nextPizzaId` model the AUTOINCREMENT sequences, and
`now` models the wall clock read by `datetime.now()`. -/
structure DBState where
  pizza : Option (List Pizza)
  promoCode : Option (List PromoCode)
  orderTab : Option OrderTable
  orderNew : Option (List OrderRow)
  nextOrderId : Nat
  nextPizzaId : Nat
  now : String
deriving DecidableEq, Repr

/-- A store in which no table has ever been created. -/
def freshDB : DBState :=
  { pizza := none
    promoCode := none
    orderTab := none
    orderNew := none
    nextOrderId := 1
    nextPizzaId := 1
    now := "2026-01-01 00:00:00" }

/-! ## Pricing (the computation at `confirmation`, app.py lines 161-164) -/

/-- Python's `x if x else 0` applied to the nullable
`discount_percent` column: `None` and `0` are both falsy. -/
def pyOr0 (x : Option ℚ) : ℚ :=
  match x with
  | none => 0
  | some d => if d = 0 then 0 else d

/-- The three derived amounts computed by the confirmation view. -/
structure Priced where
  subtotal : ℚ
  discount_amount : ℚ
  discounted_total : ℚ
deriving DecidableEq, Repr

/-- The pricing block of `confirmation` (app.py lines 161-164):
`subtotal = price * quantity`,
`discount_percent = row value if truthy else 0`,
`discount_amount = subtotal * (discount_percent / 100)`,
`discounted_total = subtotal - discount_amount`. -/
def confirmationPricing (price quantity : ℚ) (dp : Option ℚ) : Priced :=
  let subtotal := price * quantity
  let discount_percent := pyOr0 dp
  let discount_amount := subtotal * (discount_percent / 100)
  { subtotal := subtotal
    discount_amount := discount_amount
    discounted_total := subtotal - discount_amount }

/-! ## Shared pricing lemmas -/

theorem pyOr0_some (d : ℚ) : pyOr0 (some d) = d := by
  by_cases h : d = 0 <;> simp [pyOr0, h]

theorem pricing_no_discount (price quantity : ℚ) :
    (confirmationPricing price quantity none).discount_amount = 0 ∧
    (confirmationPricing price quantity none).discounted_total =
      (confirmationPricing price quantity none).subtotal := by
  simp [confirmationPricing, pyOr0]

/-! ## Claims C5 and C6 -/

/-- C5: for all unitPrice ≥ 0, quantity ≥ 1 and discountPercent in
[0,100], the priced result satisfies `subtotal = unitPrice * quantity`,
`discountAmount = subtotal * (discountPercent / 100)`,
`total = subtotal - discountAmount`, and `total ≤ subtotal`. -/
theorem C5_pricing_identities (up q dp : ℚ)
    (hup : 0 ≤ up) (hq : 1 ≤ q) (h0 : 0 ≤ dp) (h100 : dp ≤ 100) :
    (confirmationPricing up q (some dp)).subtotal = up * q ∧
    (confirmationPricing up q (some dp)).discount_amount =
      (confirmationPricing up q (some dp)).subtotal * (dp / 100) ∧
    (confirmationPricing up q (some dp)).discounted_total =
      (confirmationPricing up q (some dp)).subtotal -
        (confirmationPricing up q (some dp)).discount_amount ∧
    (confirmationPricing up q (some dp)).discounted_total ≤
      (confirmationPricing up q (some dp)).subtotal := by
  have hsub : (0 : ℚ) ≤ up * q :=
    mul_nonneg hup (le_trans (by norm_num) hq)
  refine ⟨rfl, ?_, rfl, ?_⟩
  · simp [confirmationPricing, pyOr0_some]
  · have hda : (0 : ℚ) ≤ up * q * (pyOr0 (some dp) / 100) := by
      rw [pyOr0_some]
      exact mul_nonneg hsub (by positivity)
    simpa [confirmationPricing] using sub_le_self (up * q) hda

/-- Witness for C5 at unitPrice 2, quantity 3, discountPercent 50. -/
theorem C5_pricing_identities_witness :
    (0 : ℚ) ≤ 2 ∧ (1 : ℚ) ≤ 3 ∧ (0 : ℚ) ≤ 50 ∧ (50 : ℚ) ≤ 100 ∧
    (confirmationPricing 2 3 (some 50)).discounted_total ≤
      (confirmationPricing 2 3 (some 50)).subtotal :=
  ⟨by norm_num, by norm_num, by norm_num, by norm_num,
   (C5_pricing_identities 2 3 50 (by norm_num) (by norm_num)
      (by norm_num) (by norm_num)).2.2.2⟩

/-- C6: an order with no promotion (`discount_percent` NULL) and one
with `discount_percent = 0` price identically; in both cases the
discount amount is 0 and the total equals the subtotal. -/
theorem C6_zero_discount_identical (up q : ℚ) :
    confirmationPricing up q none = confirmationPricing up q (some 0) ∧
    (confirmationPricing up q none).discount_amount = 0 ∧
    (confirmationPricing up q none).discounted_total =
      (confirmationPricing up q none).subtotal := by
  refine ⟨?_, (pricing_no_discount up q).1, (pricing_no_discount up q).2⟩
  simp [confirmationPricing, pyOr0]

/-! ## Schema setup (`init_db`, app.py lines 22-70) -/

/-- The fixed seed set inserted by `init_db` when `Pizza` is empty. -/
def sample_pizzas : List (String × ℚ) :=
  [("Pepperoni", 13.99),
   ("Margherita", 14.99),
   ("Hawaiian", 99.99),
   ("Vegetarian", 12.99),
   ("Supreme", 14.99),
   ("BBQ Chicken", 13.99),
   ("Meat Lovers", 15.99),
   ("Buffalo", 16.99)]

/-- Assign AUTOINCREMENT ids to the seed rows starting at `n`. -/
def seedFrom (n : Nat) (l : List (String × ℚ)) : List Pizza :=
  match l with
  | [] => []
  | (nm, pr) :: rest => { id := n, name := nm, price := pr } :: seedFrom (n + 1) rest

/-- `init_db` (app.py lines 22-70): `CREATE TABLE IF NOT EXISTS` for
`Pizza` and `"Order"` (the latter in the pre-migration shape, without
`customer_name` / `promo_code_id`), then seed `Pizza` with
`sample_pizzas` when `SELECT COUNT(*) FROM Pizza` is 0.  No statement
in the function touches a `PromoCode` table. -/
def init_db (st : DBState) : DBState :=
  let pizzas := st.pizza.getD []
  let orderT := st.orderTab.getD (OrderTable.old [])
  if pizzas.isEmpty then
    { st with
        pizza := some (seedFrom st.nextPizzaId sample_pizzas)
        orderTab := some orderT
        nextPizzaId := st.nextPizzaId + sample_pizzas.length }
  else
    { st with pizza := some pizzas, orderTab := some orderT }

/-! ## Order ledger (`save_order`, app.py lines 82-96) -/

/-- `save_order` (app.py lines 82-96): one INSERT into the
current-shape `"Order"` table and `commit`; returns `lastrowid`.
There is no `SELECT` against `Pizza` and no `PRAGMA foreign_keys`, so
nothing checks that `pizza_id` references an existing row.  When the
table is absent or still has the old shape, the INSERT raises
(`no such table` / `no such column`), modelled by the `none` result
with the state unchanged. -/
def save_order (st : DBState) (pizza_id quantity : SqlVal)
    (customer_name : String) (promo_code_id : Option Nat) :
    DBState × Option Nat :=
  match st.orderTab with
  | some (OrderTable.cur rows) =>
      let oid := st.nextOrderId
      let row : OrderRow :=
        { id := oid
          pizza_id := pizza_id
          quantity := quantity
          customer_name := customer_name
          order_date := st.now
          promo_code_id := promo_code_id }
      ({ st with
           orderTab := some (OrderTable.cur (rows ++ [row]))
           nextOrderId := oid + 1 },
       some oid)
  | _ => (st, none)

/-- Number of rows in the `Order` table (0 when the table is absent). -/
def orderCount (st : DBState) : Nat :=
  match st.orderTab with
  | some (OrderTable.old rows) => rows.length
  | some (OrderTable.cur rows) => rows.length
  | none => 0

/-! ## Promotion lookup (inside `create_order`, app.py lines 136-145) -/

/-- The query `SELECT id FROM PromoCode WHERE code = ?` bound to
`promo_code.upper()`: the input is uppercased and then compared for
exact (BINARY-collation) equality with the stored code. -/
def findPromoId (promos : List PromoCode) (code : String) : Option Nat :=
  (promos.find? (fun pc => pc.code = pyUpper code)).map (fun pc => pc.id)

/-- Python truthiness of an optional form string: `None` and the empty
string are falsy. -/
def pyBlank (s : Option String) : Bool :=
  match s with
  | none => true
  | some t => t = ""

/-- The promo-resolution step of `create_order`: skipped for a falsy
`promo_code`; otherwise queries the `PromoCode` table, which raises
`OperationalError` (`no such table`) when that table is absent. -/
def promoLookup (st : DBState) (promo_code : Option String) :
    Except Unit (Option Nat) :=
  if pyBlank promo_code then Except.ok none
  else
    match st.promoCode with
    | none => Except.error ()
    | some promos => Except.ok (findPromoId promos (promo_code.getD ""))

/-! ## Order workflow (`create_order`, app.py lines 121-148) -/

/-- The raw POST form fields; `request.form.get` yields `None` for a
missing field. -/
structure OrderForm where
  pizza_id : Option String
  quantity : Option String
  customer_name : Option String
  promo_code : Option String
deriving DecidableEq, Repr

/-- The outcome handed back to the presentation layer. -/
inductive Response where
  | redirectMenu
  | redirectConfirmation (order_id : Nat)
  | serverError
deriving DecidableEq, Repr

/-- `create_order` (app.py lines 121-148): reject when `pizza_id`,
`quantity` or `customer_name` is falsy (missing or empty); resolve the
promo code; then call `save_order` with the raw form strings (SQLite
integer affinity applies at the INSERT).  An uncaught exception in the
lookup or the insert surfaces as a server error. -/
def create_order (st : DBState) (form : OrderForm) : DBState × Response :=
  if pyBlank form.pizza_id || pyBlank form.quantity ||
     pyBlank form.customer_name then
    (st, Response.redirectMenu)
  else
    match promoLookup st form.promo_code with
    | Except.error _ => (st, Response.serverError)
    | Except.ok promo_code_id =>
        match save_order st (applyIntAffinity (form.pizza_id.getD ""))
            (applyIntAffinity (form.quantity.getD ""))
            (form.customer_name.getD "") promo_code_id with
        | (st2, some oid) => (st2, Response.redirectConfirmation oid)
        | (st2, none) => (st2, Response.serverError)

/-! ## Order retrieval (`get_order_details`, app.py lines 98-112) -/

/-- The projection of the join in `get_order_details`:
`o.id, p.name, p.price, o.quantity, pc.code, pc.discount_percent,
o.customer_name` (the two `pc` columns are NULL when the LEFT JOIN
finds no match). -/
structure OrderDetails where
  id : Nat
  name : String
  price : ℚ
  quantity : SqlVal
  code : Option String
  discount_percent : Option ℚ
  customer_name : String
deriving DecidableEq, Repr

/-- `get_order_details` (app.py lines 98-112): the query joins
`"Order"` with `Pizza` (inner) and `PromoCode` (left).  It raises when
any named table or column is missing — in particular whenever the
`PromoCode` table does not exist — modelled by `Except.error`.
Otherwise it returns the joined row for `order_id`, or `none`
(`fetchone` on an empty result). -/
def get_order_details (st : DBState) (oid : Nat) :
    Except Unit (Option OrderDetails) :=
  match st.pizza, st.promoCode, st.orderTab with
  | some pizzas, some promos, some (OrderTable.cur rows) =>
      Except.ok (do
        let o ← rows.find? (fun r => r.id = oid)
        let pid ← o.pizza_id.asInt
        let p ← pizzas.find? (fun p => (p.id : Int) = pid)
        let pc := o.promo_code_id.bind
          (fun i => promos.find? (fun pc => pc.id = i))
        some { id := o.id
               name := p.name
               price := p.price
               quantity := o.quantity
               code := pc.map (fun pc => pc.code)
               discount_percent := pc.map (fun pc => pc.discount_percent)
               customer_name := o.customer_name })
  | _, _, _ => Except.error ()

/-! ## Schema migration (`migrate_order_table`, app.py lines 182-229) -/

/-- The row transformation of the copy step:
`SELECT id, pizza_id, quantity, 'Unknown', order_date, NULL`. -/
def migrateRow (r : OrderRowOld) : OrderRow :=
  { id := r.id
    pizza_id := r.pizza_id
    quantity := r.quantity
    customer_name := "Unknown"
    order_date := r.order_date
    promo_code_id := none }

/-- `migrate_order_table` (app.py lines 182-229).  The shape check is
`'customer_name' not in columns` from `PRAGMA table_info("Order")`.
On the old shape it creates `Order_new` (DDL autocommits — the sqlite3
driver only opens its implicit transaction at the INSERT), copies every
row with `customer_name = 'Unknown'` and `promo_code_id = NULL`, then
drops the old table and renames inside that transaction, and commits.
`copyFails` models an engine failure of the copy step: the `except`
clause prints, rolls back and returns normally — it has no `raise` —
so the second component (a propagated exception) is always `none`.
A missing `Order` table also makes the copy raise and is swallowed the
same way.  On the current shape the function only prints. -/
def migrate_order_table (st : DBState) (copyFails : Bool) :
    DBState × Option Unit :=
  match st.orderTab with
  | some (OrderTable.old rows) =>
      let shadow := st.orderNew.getD []
      if copyFails then
        ({ st with orderNew := some shadow }, none)
      else
        ({ st with
             orderTab := some (OrderTable.cur (shadow ++ rows.map migrateRow))
             orderNew := none },
         none)
  | some (OrderTable.cur _) => (st, none)
  | none =>
      ({ st with orderNew := some (st.orderNew.getD []) }, none)

/-! ## Concrete states used by closed theorems and witnesses -/

/-- The store produced by the startup sequence in `__main__`:
`init_db()` followed by `migrate_order_table()` on a fresh store. -/
def startupDB : DBState := (migrate_order_table (init_db freshDB) false).1

/-- A pre-migration order row. -/
def oldRow1 : OrderRowOld :=
  { id := 1, pizza_id := SqlVal.int 1, quantity := SqlVal.int 2,
    order_date := "2025-12-31 10:00:00" }

/-- A store whose `Order` table still has the pre-migration shape and
holds one row. -/
def oldShapeDB : DBState :=
  { pizza := some (seedFrom 1 sample_pizzas)
    promoCode := none
    orderTab := some (OrderTable.old [oldRow1])
    orderNew := none
    nextOrderId := 2
    nextPizzaId := 9
    now := "2026-01-01 00:00:00" }

/-- A ready store with one pizza and one stored promo code, used to
exercise the order workflow. -/
def promoReadyDB : DBState :=
  { pizza := some [{ id := 1, name := "Pepperoni", price := 13.99 }]
    promoCode := some [{ id := 1, code := "SAVE10", discount_percent := 10 }]
    orderTab := some (OrderTable.cur [])
    orderNew := none
    nextOrderId := 1
    nextPizzaId := 2
    now := "2026-01-01 00:00:00" }

/-! ## Claim C1 -/

/-- C1: `init_db` on a fresh store creates only the `Pizza` and
(old-shape) `Order` structures and seeds `Pizza`; it never creates the
`PromoCode` structure, so the promo-code lookup and the
`get_order_details` join — which both name `PromoCode` — raise rather
than being well-defined.  This exhibits the code bug behind the claim:
the claimed third structure is missing. -/
theorem C1_init_db_missing_promocode :
    (init_db freshDB).pizza = some (seedFrom 1 sample_pizzas) ∧
    (init_db freshDB).orderTab = some (OrderTable.old []) ∧
    (init_db freshDB).promoCode = none ∧
    promoLookup (init_db freshDB) (some "SAVE10") = Except.error () ∧
    get_order_details startupDB 1 = Except.error () := by
  refine ⟨rfl, rfl, rfl, rfl, rfl⟩

/-! ## Claim C2 -/

/-- C2: `save_order` performs no existence check on `pizza_id` and the
code never enables SQLite foreign-key enforcement, so inserting an
order for the nonexistent pizza id 999 on the freshly initialized
store (pizza ids 1..8) appends a dangling row and returns its id —
the ledger row count grows and no ReferentialError is signalled,
contradicting the claim.  This exhibits the code bug. -/
theorem C2_save_order_dangling_insert :
    ((startupDB.pizza.getD []).all (fun p => p.id ≠ 999)) = true ∧
    orderCount startupDB = 0 ∧
    save_order startupDB (SqlVal.int 999) (SqlVal.int 2) "Alice" none =
      ({ startupDB with
           orderTab := some (OrderTable.cur
             [{ id := 1, pizza_id := SqlVal.int 999,
                quantity := SqlVal.int 2, customer_name := "Alice",
                order_date := "2026-01-01 00:00:00",
                promo_code_id := none }])
           nextOrderId := 2 },
       some 1) ∧
    orderCount (save_order startupDB (SqlVal.int 999) (SqlVal.int 2)
      "Alice" none).1 = 1 := by
  refine ⟨by decide, rfl, rfl, rfl⟩

/-! ## Claim C3 -/

/-- Spec-side predicate (from the claim's words, not the code): the
quantity form field is a positive integer. -/
def spec_isPositiveIntQuantity (s : String) : Bool :=
  !s.data.isEmpty && s.data.all Char.isDigit &&
    decide (1 ≤ charsToNat s.data)

/-- Counterexample to C3: quantity "0" is not a positive integer, yet
`create_order` does not reject it — the order is persisted and the
caller is sent to the confirmation page, so the claimed "if and only
if" rejection condition is false on the code. -/
theorem C3_cex_quantity_zero_accepted :
    spec_isPositiveIntQuantity "0" = false ∧
    (create_order startupDB
      { pizza_id := some "1", quantity := some "0",
        customer_name := some "Alice", promo_code := none }).2 =
      Response.redirectConfirmation 1 ∧
    orderCount (create_order startupDB
      { pizza_id := some "1", quantity := some "0",
        customer_name := some "Alice", promo_code := none }).1 = 1 := by
  refine ⟨rfl, rfl, rfl⟩

/-- C3 (amended): `create_order` rejects — redirecting to the menu with
the store untouched — exactly when `pizza_id`, `quantity` or
`customer_name` is missing or empty; the positivity (or integrality) of
`quantity` is never checked.  Every input passing the emptiness checks
proceeds to `save_order` and is persisted, provided the `Order` table
has the current shape and, when a promo code is supplied, the
`PromoCode` table exists. -/
theorem C3_reject_iff_blank (st : DBState) (form : OrderForm) :
    ((create_order st form).2 = Response.redirectMenu ↔
      (pyBlank form.pizza_id || pyBlank form.quantity ||
        pyBlank form.customer_name) = true) ∧
    ((create_order st form).2 = Response.redirectMenu →
      create_order st form = (st, Response.redirectMenu)) ∧
    ((pyBlank form.pizza_id || pyBlank form.quantity ||
        pyBlank form.customer_name) = false →
      (pyBlank form.promo_code = true ∨ st.promoCode.isSome = true) →
      (∃ rows, st.orderTab = some (OrderTable.cur rows)) →
      orderCount (create_order st form).1 = orderCount st + 1 ∧
      (create_order st form).2 =
        Response.redirectConfirmation st.nextOrderId) := by
  by_cases hblank : (pyBlank form.pizza_id || pyBlank form.quantity ||
      pyBlank form.customer_name) = true
  · refine ⟨?_, ?_, ?_⟩
    · simp [create_order, hblank]
    · intro _; simp [create_order, hblank]
    · intro hno; rw [hno] at hblank; exact absurd hblank (by simp)
  · have hb : (pyBlank form.pizza_id || pyBlank form.quantity ||
        pyBlank form.customer_name) = false := by
      revert hblank; cases pyBlank form.pizza_id <;>
        cases pyBlank form.quantity <;>
        cases pyBlank form.customer_name <;> simp
    have hlk : ∀ pcid rows, st.orderTab = some (OrderTable.cur rows) →
        promoLookup st form.promo_code = Except.ok pcid →
        create_order st form = ({ st with
            orderTab := some (OrderTable.cur (rows ++
              [{ id := st.nextOrderId,
                 pizza_id := applyIntAffinity (form.pizza_id.getD ""),
                 quantity := applyIntAffinity (form.quantity.getD ""),
                 customer_name := form.customer_name.getD "",
                 order_date := st.now,
                 promo_code_id := pcid }]))
            nextOrderId := st.nextOrderId + 1 },
          Response.redirectConfirmation st.nextOrderId) := by
      intro pcid rows htab hok
      simp only [create_order, hb, Bool.false_eq_true, if_false, hok,
        save_order, htab]
    refine ⟨?_, ?_, ?_⟩
    · constructor
      · intro hmenu
        exfalso
        rcases hok : promoLookup st form.promo_code with e | pcid
        · simp [create_order, hb, hok] at hmenu
        · rcases htab : st.orderTab with _ | t
          · simp [create_order, hb, hok, save_order, htab] at hmenu
          · rcases t with rows | rows
            · simp [create_order, hb, hok, save_order, htab] at hmenu
            · rw [hlk pcid rows htab hok] at hmenu
              simp at hmenu
      · intro h; rw [h] at hb; exact absurd hb (by simp)
    · intro hmenu
      rcases hok : promoLookup st form.promo_code with e | pcid
      · simp [create_order, hb, hok] at hmenu
      · rcases htab : st.orderTab with _ | t
        · simp [create_order, hb, hok, save_order, htab] at hmenu
        · rcases t with rows | rows
          · simp [create_order, hb, hok, save_order, htab] at hmenu
          · rw [hlk pcid rows htab hok] at hmenu
            simp at hmenu
    · intro _ hpromo htab
      rcases htab with ⟨rows, htab⟩
      have hok : ∃ pcid, promoLookup st form.promo_code = Except.ok pcid := by
        rcases hpromo with hbpc | hsome
        · exact ⟨none, by simp [promoLookup, hbpc]⟩
        · rcases hpc : st.promoCode with _ | promos
          · rw [hpc] at hsome; simp at hsome
          · by_cases hbpc : pyBlank form.promo_code = true
            · exact ⟨none, by simp [promoLookup, hbpc]⟩
            · exact ⟨findPromoId promos (form.promo_code.getD ""),
                by simp [promoLookup, hbpc, hpc]⟩
      rcases hok with ⟨pcid, hok⟩
      rw [hlk pcid rows htab hok]
      simp [orderCount, htab]

/-- Witness for C3 (amended) at the startup store with a complete form
and no promo code. -/
theorem C3_reject_iff_blank_witness :
    ((pyBlank (some "1") || pyBlank (some "2") || pyBlank (some "Bob")) =
      false) ∧
    orderCount (create_order startupDB
      { pizza_id := some "1", quantity := some "2",
        customer_name := some "Bob", promo_code := none }).1 =
      orderCount startupDB + 1 :=
  ⟨rfl,
   ((C3_reject_iff_blank startupDB
      { pizza_id := some "1", quantity := some "2",
        customer_name := some "Bob", promo_code := none }).2.2
     rfl (Or.inl rfl) ⟨[], rfl⟩).1⟩

/-! ## Claim C4 -/

/-- Counterexample to C4: on an old-shape store whose copy step fails,
`migrate_order_table` returns normally — the second component, the
propagated exception, is `none` — because its `except` clause has no
`raise`.  The error is swallowed, contradicting "the error propagates
to the caller"; the old structure does remain intact. -/
theorem C4_cex_error_swallowed :
    (migrate_order_table oldShapeDB true).2 = none ∧
    (migrate_order_table oldShapeDB true).1.orderTab =
      some (OrderTable.old [oldRow1]) := by
  refine ⟨rfl, rfl⟩

/-- C4 (amended): if the copy step of the migration fails, the
exception is caught, rolled back and swallowed — `migrate_order_table`
returns normally with no propagated error — and the store keeps the
old `Order` structure with its rows intact (never a state with neither
old nor new structure); only an empty committed `Order_new` shadow
table may remain. -/
theorem C4_copy_failure_swallowed (st : DBState) (rows : List OrderRowOld)
    (htab : st.orderTab = some (OrderTable.old rows)) :
    (migrate_order_table st true).2 = none ∧
    (migrate_order_table st true).1.orderTab =
      some (OrderTable.old rows) ∧
    (migrate_order_table st true).1.orderNew =
      some (st.orderNew.getD []) := by
  simp [migrate_order_table, htab]

/-- Witness for C4 (amended) at the concrete old-shape store. -/
theorem C4_copy_failure_swallowed_witness :
    (migrate_order_table oldShapeDB true).2 = none ∧
    (migrate_order_table oldShapeDB true).1.orderTab =
      some (OrderTable.old [oldRow1]) ∧
    (migrate_order_table oldShapeDB true).1.orderNew = some [] :=
  C4_copy_failure_swallowed oldShapeDB _ rfl

/-! ## Claim C8 -/

/-- C8: on an `Order` table lacking `customer_name` (and with no
shadow-table remnant), the migration replaces the table with the
current shape holding exactly the images of the pre-existing rows —
each with `customer_name = "Unknown"` and `promo_code_id` unset, with
the row count preserved — and on an already-current table the
migration is a no-op for every outcome of the copy oracle. -/
theorem C8_migration_upgrades_rows (st : DBState)
    (rows : List OrderRowOld)
    (htab : st.orderTab = some (OrderTable.old rows))
    (hnew : st.orderNew = none) :
    migrate_order_table st false =
      ({ st with
           orderTab := some (OrderTable.cur (rows.map migrateRow))
           orderNew := none }, none) ∧
    (rows.map migrateRow).length = rows.length ∧
    (∀ r ∈ rows.map migrateRow,
      r.customer_name = "Unknown" ∧ r.promo_code_id = none) ∧
    (∀ st2 rows2 b, st2.orderTab = some (OrderTable.cur rows2) →
      migrate_order_table st2 b = (st2, none)) := by
  refine ⟨?_, by simp, ?_, ?_⟩
  · simp [migrate_order_table, htab, hnew]
  · intro r hr
    rcases List.mem_map.mp hr with ⟨a, _, rfl⟩
    exact ⟨rfl, rfl⟩
  · intro st2 rows2 b h2
    simp [migrate_order_table, h2]

/-- Witness for C8 at the concrete one-row old-shape store. -/
theorem C8_migration_upgrades_rows_witness :
    migrate_order_table oldShapeDB false =
      ({ oldShapeDB with
           orderTab := some (OrderTable.cur [migrateRow oldRow1])
           orderNew := none }, none) :=
  (C8_migration_upgrades_rows oldShapeDB [oldRow1] rfl rfl).1

/-! ## Claim C10 -/

theorem find?_map_migrateRow (rows : List OrderRowOld)
    (hnd : (rows.map OrderRowOld.id).Nodup) :
    ∀ r ∈ rows, (rows.map migrateRow).find? (fun x => x.id = r.id) =
      some (migrateRow r) := by
  induction rows with
  | nil => intro r hr; cases hr
  | cons a l ih =>
      intro r hr
      rw [List.map_cons] at hnd
      have hnd1 := List.nodup_cons.mp hnd
      rcases List.mem_cons.mp hr with h | h
      · subst h
        rw [List.map_cons]
        exact List.find?_cons_of_pos _ (by simp [migrateRow])
      · have hne : a.id ≠ r.id := by
          intro he
          apply hnd1.1
          rw [he]
          exact List.mem_map.mpr ⟨r, h, rfl⟩
        rw [List.map_cons,
          List.find?_cons_of_neg _ (by simp [migrateRow, hne]),
          ih hnd1.2 r h]

/-- C10: the migration copies `id`, `order_date` (and `pizza_id`,
`quantity`) verbatim — only `customer_name` and `promo_code_id` are
introduced — so looking a row up by its pre-migration id in the
migrated table yields that row's image. -/
theorem C10_migration_preserves_id_date (st : DBState)
    (rows : List OrderRowOld)
    (htab : st.orderTab = some (OrderTable.old rows))
    (hnew : st.orderNew = none)
    (hnd : (rows.map OrderRowOld.id).Nodup) :
    (migrate_order_table st false).1.orderTab =
      some (OrderTable.cur (rows.map migrateRow)) ∧
    (∀ r : OrderRowOld, (migrateRow r).id = r.id ∧
      (migrateRow r).order_date = r.order_date ∧
      (migrateRow r).pizza_id = r.pizza_id ∧
      (migrateRow r).quantity = r.quantity) ∧
    ∀ r ∈ rows, (rows.map migrateRow).find? (fun x => x.id = r.id) =
      some (migrateRow r) := by
  refine ⟨by simp [migrate_order_table, htab, hnew],
    fun r => ⟨rfl, rfl, rfl, rfl⟩, find?_map_migrateRow rows hnd⟩

/-- Witness for C10 at the concrete one-row old-shape store. -/
theorem C10_migration_preserves_id_date_witness :
    [oldRow1].map OrderRowOld.id = [1] ∧
    ([oldRow1].map migrateRow).find? (fun x => x.id = oldRow1.id) =
      some (migrateRow oldRow1) :=
  ⟨rfl,
   (C10_migration_preserves_id_date oldShapeDB [oldRow1] rfl rfl
      (by simp)).2.2 oldRow1 (by simp)⟩

/-! ## Claim C9 -/

/-- Formalisation of the claim's words "matches case-insensitively":
two codes match when they agree up to letter case. -/
def spec_caseInsensitiveMatch (stored input : String) : Bool :=
  pyUpper stored = pyUpper input

/-- Counterexample to C9: the stored code "save10" and the input
"save10" agree up to letter case (they are equal), yet the lookup does
not find it — the query compares the stored code with the uppercased
input under an exact comparison. -/
theorem C9_cex_lowercase_stored_code :
    spec_caseInsensitiveMatch "save10" "save10" = true ∧
    findPromoId [{ id := 1, code := "save10", discount_percent := 10 }]
      "save10" = none := by
  refine ⟨rfl, rfl⟩

/-- C9 (amended): the promo lookup uppercases the input and then
compares for exact equality with the stored code, so it succeeds
precisely when some stored code equals the uppercased input; matching
is therefore case-insensitive only for stored codes that are entirely
uppercase, and on absence the lookup yields `none` (a not-found
signal) rather than throwing. -/
theorem C9_lookup_upper_exact (promos : List PromoCode) (s : String) :
    ((findPromoId promos s).isSome ↔ ∃ pc ∈ promos, pc.code = pyUpper s) ∧
    ((¬ ∃ pc ∈ promos, pc.code = pyUpper s) → findPromoId promos s = none) ∧
    (∀ pc ∈ promos, pyUpper pc.code = pc.code →
      spec_caseInsensitiveMatch pc.code s = true →
      (findPromoId promos s).isSome) := by
  have hiff : (findPromoId promos s).isSome ↔
      ∃ pc ∈ promos, pc.code = pyUpper s := by
    simp [findPromoId]
  refine ⟨hiff, ?_, ?_⟩
  · intro hno
    rcases hopt : findPromoId promos s with _ | v
    · rfl
    · exact absurd (hiff.mp (by simp [hopt])) hno
  · intro pc hpc hupper hmatch
    apply hiff.mpr
    refine ⟨pc, hpc, ?_⟩
    have : pyUpper pc.code = pyUpper s := by
      simpa [spec_caseInsensitiveMatch] using hmatch
    rw [← hupper, this]

/-- Witness for C9 (amended): the uppercase stored code "SAVE10" is
found for the lowercase input "save10". -/
theorem C9_lookup_upper_exact_witness :
    (findPromoId [{ id := 1, code := "SAVE10", discount_percent := 10 }]
      "save10").isSome = true :=
  (C9_lookup_upper_exact
    [{ id := 1, code := "SAVE10", discount_percent := 10 }] "save10").2.2
    { id := 1, code := "SAVE10", discount_percent := 10 }
    (by simp) rfl rfl

/-! ## Claim C7 -/

/-- The order form used to exercise an unknown promo code. -/
def bogusForm : OrderForm :=
  { pizza_id := some "1", quantity := some "2",
    customer_name := some "Alice", promo_code := some "BOGUS" }

/-- C7: a workflow run whose promo code matches no stored
`PromoCode` row still creates the order — the caller is sent to the
confirmation page, the ledger grows by one row whose `promo_code_id`
is unset — and the confirmation for that order carries a NULL
discount, so its computed total equals its subtotal. -/
theorem C7_unknown_promo_order_created (st : DBState)
    (promos : List PromoCode) (rows : List OrderRow)
    (pizzas : List Pizza) (form : OrderForm)
    (pzs qs cs pc : String) (pid : Int) (p : Pizza)
    (hpromos : st.promoCode = some promos)
    (htab : st.orderTab = some (OrderTable.cur rows))
    (hpz : st.pizza = some pizzas)
    (hfp : form.pizza_id = some pzs)
    (hfq : form.quantity = some qs)
    (hfc : form.customer_name = some cs)
    (hfpc : form.promo_code = some pc)
    (hqs : qs ≠ "") (hcs : cs ≠ "") (hpcs : pc ≠ "")
    (hparse : sqlIntLiteral pzs = some pid)
    (hfind : pizzas.find? (fun x => (x.id : Int) = pid) = some p)
    (hmiss : findPromoId promos pc = none)
    (hfresh : ∀ r ∈ rows, r.id ≠ st.nextOrderId) :
    (create_order st form).2 =
      Response.redirectConfirmation st.nextOrderId ∧
    (create_order st form).1.orderTab = some (OrderTable.cur (rows ++
      [{ id := st.nextOrderId, pizza_id := SqlVal.int pid,
         quantity := applyIntAffinity qs, customer_name := cs,
         order_date := st.now, promo_code_id := none }])) ∧
    orderCount (create_order st form).1 = orderCount st + 1 ∧
    get_order_details (create_order st form).1 st.nextOrderId =
      Except.ok (some
        { id := st.nextOrderId, name := p.name, price := p.price,
          quantity := applyIntAffinity qs, code := none,
          discount_percent := none, customer_name := cs }) ∧
    ∀ qq : ℚ,
      (confirmationPricing p.price qq none).discounted_total =
        (confirmationPricing p.price qq none).subtotal := by
  have hpzs : pzs ≠ "" := by
    intro he
    rw [he] at hparse
    exact Option.noConfusion hparse
  have hb1 : pyBlank (some pzs) = false := by simp [pyBlank, hpzs]
  have hb2 : pyBlank (some qs) = false := by simp [pyBlank, hqs]
  have hb3 : pyBlank (some cs) = false := by simp [pyBlank, hcs]
  have hb4 : pyBlank (some pc) = false := by simp [pyBlank, hpcs]
  have hco : create_order st form =
      ({ st with
           orderTab := some (OrderTable.cur (rows ++
             [{ id := st.nextOrderId, pizza_id := SqlVal.int pid,
                quantity := applyIntAffinity qs, customer_name := cs,
                order_date := st.now, promo_code_id := none }]))
           nextOrderId := st.nextOrderId + 1 },
       Response.redirectConfirmation st.nextOrderId) := by
    simp [create_order, hfp, hfq, hfc, hfpc, hb1, hb2, hb3, hb4,
      promoLookup, hpromos, hmiss, save_order, htab,
      applyIntAffinity, hparse]
  have hfnone : rows.find?
      (fun r => r.id = st.nextOrderId) = none :=
    List.find?_eq_none.mpr (fun x hx => by simp [hfresh x hx])
  refine ⟨by rw [hco], by rw [hco], ?_, ?_, ?_⟩
  · rw [hco]
    simp [orderCount, htab]
  · rw [hco]
    simp only [get_order_details, hpz, hpromos, htab]
    rw [List.find?_append, hfnone]
    simp [applyIntAffinity, hparse, SqlVal.asInt, hfind,
      Option.bind]
  · intro qq
    exact (pricing_no_discount p.price qq).2

/-- Witness for C7: the promo code "BOGUS" matches nothing in the
ready store, yet the order is created. -/
theorem C7_unknown_promo_order_created_witness :
    (create_order promoReadyDB bogusForm).2 =
      Response.redirectConfirmation 1 :=
  (C7_unknown_promo_order_created promoReadyDB
    [{ id := 1, code := "SAVE10", discount_percent := 10 }] []
    [{ id := 1, name := "Pepperoni", price := 13.99 }] bogusForm
    "1" "2" "Alice" "BOGUS" 1
    { id := 1, name := "Pepperoni", price := 13.99 }
    rfl rfl rfl rfl rfl rfl rfl
    (by decide) (by decide) (by decide)
    rfl rfl rfl (by simp)).1
